import Mathlib

/-!
Shallow embedding of `src/lambda/app.py` (Eliza_GPT_lambda): the request
gatekeeping, message normalization, and response encoding pipeline of the
Lambda handler, together with theorems settling the frozen claims about it.

Python strings are modelled as Lean `String` (ASCII-faithful), Python ints as
`Nat`/`Int`, JSON values as the inductive `JVal` below, and an uncaught Python
exception as `Except.error PyExn.err`.
-/

/-- Whitespace characters of Python `str.strip` / `str.split` (ASCII range;
unicode whitespace beyond these is not modelled). -/
def isPySpace (c : Char) : Bool :=
  c = ' ' || c = '\t' || c = '\n' || c = '\r' || c = '\x0b' || c = '\x0c'

/-- Model of Python `str.strip()`: drop leading and trailing whitespace. -/
def pyStrip (s : String) : String :=
  String.mk (((s.data.dropWhile isPySpace).reverse.dropWhile isPySpace).reverse)

/-- Split a character list at every character satisfying `p`, keeping empty
pieces (the list analogue of `str.split(sep)` for a one-character separator
class). -/
def splitIf (p : Char → Bool) : List Char → List (List Char)
  | [] => [[]]
  | c :: rest =>
    if p c then [] :: splitIf p rest
    else
      match splitIf p rest with
      | [] => [[c]]
      | w :: ws => (c :: w) :: ws

/-- Model of Python `s.split(sep)` for a one-character separator. -/
def splitOnChar (sep : Char) (s : String) : List String :=
  (splitIf (fun c => c = sep) s.data).map String.mk

/-- Model of Python `str.split()` with no arguments: split on whitespace runs,
discarding empty pieces. -/
def pySplitWs (s : String) : List String :=
  ((splitIf isPySpace s.data).map String.mk).filter (fun w => w ≠ "")

/-- ASCII lowercasing of one character. -/
def asciiLower (c : Char) : Char :=
  if 'A' ≤ c ∧ c ≤ 'Z' then Char.ofNat (c.toNat + 32) else c

/-- Model of Python `str.lower()` (ASCII; the configuration values it is
applied to are ASCII). -/
def pyLower (s : String) : String := String.mk (s.data.map asciiLower)

/-- Numeric value of an all-digits character list. -/
def digitsToNat (ds : List Char) : Nat :=
  ds.foldl (fun acc c => acc * 10 + (c.toNat - 48)) 0

/-- Does the first list start with the second? -/
def startsWithList : List Char → List Char → Bool
  | _, [] => true
  | [], _ :: _ => false
  | c :: cs, p :: ps => c = p && startsWithList cs ps

/-- Fueled scan for `replaceList`; the fuel is at least the list length, and
each step consumes at least one character. -/
def replaceListAux (pat rep : List Char) : Nat → List Char → List Char
  | 0, cs => cs
  | _ + 1, [] => []
  | f + 1, c :: rest =>
    if pat ≠ [] ∧ startsWithList (c :: rest) pat then
      rep ++ replaceListAux pat rep f (rest.drop (pat.length - 1))
    else c :: replaceListAux pat rep f rest

/-- Model of Python `str.replace` on character lists for a non-empty pattern:
replace non-overlapping occurrences left to right. -/
def replaceList (pat rep : List Char) (cs : List Char) : List Char :=
  replaceListAux pat rep cs.length cs

/-- Model of Python `str.replace` for a non-empty pattern. -/
def pyReplace (s pat rep : String) : String :=
  String.mk (replaceList pat.data rep.data s.data)

/-- Model of the Python idiom `a or b` on optional strings, where `None` and
the empty string are falsy: return the first operand when it is a non-empty
string, otherwise the second operand. -/
def orStr (a b : Option String) : Option String :=
  match a with
  | some s => if s = "" then b else some s
  | none => b

/-- Model of Python `dict.get` on a string-to-string mapping represented as an
association list (keys unique). -/
def pyGet (m : List (String × String)) (k : String) : Option String :=
  (m.find? (fun p => p.1 = k)).map Prod.snd

/-- Model of Python `int(s)` on a decimal string: strip whitespace, optional
sign, then digits (underscore separators not modelled). `none` models a raised
`ValueError`. -/
def pyInt (s : String) : Option Int :=
  let t := (pyStrip s).data
  let core : List Char → Option Nat := fun ds =>
    if ds = [] then none
    else if ds.all Char.isDigit then some (digitsToNat ds) else none
  match t with
  | '-' :: rest => (core rest).map (fun n => -(n : Int))
  | '+' :: rest => (core rest).map (fun n => (n : Int))
  | _ => (core t).map (fun n => (n : Int))

/-- The IEEE binary64 value of the literal `1.33` is exactly
`float133Num / 2 ^ 52`. -/
def float133Num : Nat := 5989787504402760

/-- Number of binary digits of a natural number (correct for numbers below
`2 ^ 128`, far beyond any reachable product here). -/
def bitLen (n : Nat) : Nat :=
  (List.range 128).foldl (fun acc i => if 2 ^ i ≤ n then i + 1 else acc) 0

/-- Round a natural number to 53 significant bits, ties to even: the exact
significand rounding performed by an IEEE binary64 multiplication whose exact
product is `p` times a power of two. -/
def roundSig53 (p : Nat) : Nat :=
  let b := bitLen p
  if b ≤ 53 then p
  else
    let k := b - 53
    let q := p / 2 ^ k
    let r := p % 2 ^ k
    let h := 2 ^ (k - 1)
    (if h < r ∨ (r = h ∧ q % 2 = 1) then q + 1 else q) * 2 ^ k

/-- Numerator (over `2 ^ 52`) of the binary64 product `wc * 1.33` as computed
by Python for a word count `wc` (exactly representable for realistic `wc`). -/
def pyMul133 (wc : Nat) : Nat := roundSig53 (wc * float133Num)

/-- Embedding of `estimate_tokens` (app.py:26): `0` for empty text, else
`max(1, int(word_count * 1.33))`, where `int` truncates the binary64
product toward zero. -/
def estimate_tokens (text : String) : Nat :=
  if text = "" then 0
  else Nat.max 1 (pyMul133 (pySplitWs text).length / 2 ^ 52)

/-- JSON values as produced by `json.loads` (numbers restricted to integers:
no payload relevant to the claims uses floats). -/
inductive JVal where
  | null : JVal
  | bool (b : Bool) : JVal
  | num (n : Int) : JVal
  | str (s : String) : JVal
  | arr (elems : List JVal) : JVal
  | obj (fields : List (String × JVal)) : JVal

/-- Model of Python `dict.get` on a JSON object (insertion-ordered fields,
keys unique as guaranteed by `json.loads` and by construction). -/
def jGet (fs : List (String × JVal)) (k : String) : Option JVal :=
  (fs.find? (fun p => p.1 = k)).map Prod.snd

/-- Python truthiness of a JSON value. -/
def jTruthy (v : JVal) : Bool :=
  match v with
  | .null => false
  | .bool b => b
  | .num n => n ≠ 0
  | .str s => s ≠ ""
  | .arr xs => !xs.isEmpty
  | .obj fs => !fs.isEmpty

/-- Insert a key into an insertion-ordered field list the way Python dict
assignment does: an existing key keeps its position and gets the new value,
a new key is appended. -/
def objInsert (fs : List (String × JVal)) (k : String) (v : JVal) : List (String × JVal) :=
  if fs.any (fun p => p.1 = k) then fs.map (fun p => if p.1 = k then (k, v) else p)
  else fs ++ [(k, v)]

/-- Sequential dict construction from parsed key-value pairs (later duplicate
keys overwrite earlier ones, as in `json.loads`). -/
def dedupFields (raw : List (String × JVal)) : List (String × JVal) :=
  raw.foldl (fun acc kv => objInsert acc kv.1 kv.2) []

/-- Skip JSON whitespace (space, tab, newline, carriage return). -/
def skipJWs : List Char → List Char
  | [] => []
  | c :: rest => if c = ' ' || c = '\t' || c = '\n' || c = '\r' then skipJWs rest else c :: rest

/-- Value of a hexadecimal digit. -/
def hexVal (c : Char) : Option Nat :=
  if '0' ≤ c ∧ c ≤ '9' then some (c.toNat - 48)
  else if 'a' ≤ c ∧ c ≤ 'f' then some (c.toNat - 87)
  else if 'A' ≤ c ∧ c ≤ 'F' then some (c.toNat - 55)
  else none

/-- Value of four hexadecimal digits. -/
def hexVal4 (a b c d : Char) : Option Nat := do
  let x ← hexVal a
  let y ← hexVal b
  let z ← hexVal c
  let w ← hexVal d
  pure (((x * 16 + y) * 16 + z) * 16 + w)

/-- Parse the remainder of a JSON string literal (opening quote already
consumed), returning the decoded characters and the input after the closing
quote. Escapes follow the JSON grammar; a surrogate pair decodes to one
character. Lone surrogates (which CPython would keep) are not representable
in a Lean `Char` and make the parse fail; no claim-relevant input uses them. -/
def parseJStr : List Char → Option (List Char × List Char)
  | [] => none
  | c :: rest =>
    if c = '"' then some ([], rest)
    else if c = '\\' then
      match rest with
      | [] => none
      | e :: rest2 =>
        if e = '"' then (parseJStr rest2).map (fun p => ('"' :: p.1, p.2))
        else if e = '\\' then (parseJStr rest2).map (fun p => ('\\' :: p.1, p.2))
        else if e = '/' then (parseJStr rest2).map (fun p => ('/' :: p.1, p.2))
        else if e = 'b' then (parseJStr rest2).map (fun p => ('\x08' :: p.1, p.2))
        else if e = 'f' then (parseJStr rest2).map (fun p => ('\x0c' :: p.1, p.2))
        else if e = 'n' then (parseJStr rest2).map (fun p => ('\n' :: p.1, p.2))
        else if e = 'r' then (parseJStr rest2).map (fun p => ('\r' :: p.1, p.2))
        else if e = 't' then (parseJStr rest2).map (fun p => ('\t' :: p.1, p.2))
        else if e = 'u' then
          match rest2 with
          | h1 :: h2 :: h3 :: h4 :: rest3 =>
            match hexVal4 h1 h2 h3 h4 with
            | none => none
            | some n =>
              if n < 0xD800 ∨ 0xE000 ≤ n then
                (parseJStr rest3).map (fun p => (Char.ofNat n :: p.1, p.2))
              else if n < 0xDC00 then
                match rest3 with
                | '\\' :: 'u' :: g1 :: g2 :: g3 :: g4 :: rest4 =>
                  match hexVal4 g1 g2 g3 g4 with
                  | none => none
                  | some m =>
                    if 0xDC00 ≤ m ∧ m < 0xE000 then
                      (parseJStr rest4).map
                        (fun p => (Char.ofNat (0x10000 + (n - 0xD800) * 0x400 + (m - 0xDC00)) :: p.1, p.2))
                    else none
                | _ => none
              else none
          | _ => none
        else none
    else if c.toNat < 0x20 then none
    else (parseJStr rest).map (fun p => (c :: p.1, p.2))

/-- Parse a JSON integer literal (floats are rejected: no claim-relevant input
uses them; `json.loads` would accept them). -/
def parseJInt (cs : List Char) : Option (Int × List Char) :=
  let go : List Char → Option (Nat × List Char) := fun ds =>
    let digits := ds.takeWhile Char.isDigit
    let rest := ds.dropWhile Char.isDigit
    if digits = [] then none
    else if digits.head? = some '0' ∧ digits.length > 1 then none
    else
      match rest with
      | c :: _ =>
        if c = '.' ∨ c = 'e' ∨ c = 'E' then none
        else some (digitsToNat digits, rest)
      | [] => some (digitsToNat digits, rest)
  match cs with
  | '-' :: ds => (go ds).map (fun p => (-(p.1 : Int), p.2))
  | _ => (go cs).map (fun p => ((p.1 : Int), p.2))

mutual

/-- Recursive-descent JSON value parse with fuel (fuel is ample for any input
by construction in `json_loads`). -/
def parseJValue : Nat → List Char → Option (JVal × List Char)
  | 0, _ => none
  | f + 1, cs =>
    match cs with
    | [] => none
    | c :: rest =>
      if c = 'n' then
        match rest with
        | 'u' :: 'l' :: 'l' :: r => some (.null, r)
        | _ => none
      else if c = 't' then
        match rest with
        | 'r' :: 'u' :: 'e' :: r => some (.bool true, r)
        | _ => none
      else if c = 'f' then
        match rest with
        | 'a' :: 'l' :: 's' :: 'e' :: r => some (.bool false, r)
        | _ => none
      else if c = '"' then (parseJStr rest).map (fun p => (.str (String.mk p.1), p.2))
      else if c = '[' then
        match skipJWs rest with
        | ']' :: r2 => some (.arr [], r2)
        | r1 => (parseJItems f r1).map (fun p => (.arr p.1, p.2))
      else if c = '\x7b' then
        match skipJWs rest with
        | '\x7d' :: r2 => some (.obj [], r2)
        | r1 => (parseJFields f r1).map (fun p => (.obj (dedupFields p.1), p.2))
      else (parseJInt (c :: rest)).map (fun p => (.num p.1, p.2))

/-- Parse the comma-separated items of a non-empty JSON array, up to and
including the closing bracket. -/
def parseJItems : Nat → List Char → Option (List JVal × List Char)
  | 0, _ => none
  | f + 1, cs =>
    (parseJValue f (skipJWs cs)).bind (fun p =>
      match skipJWs p.2 with
      | ',' :: r2 => (parseJItems f r2).map (fun q => (p.1 :: q.1, q.2))
      | ']' :: r2 => some ([p.1], r2)
      | _ => none)

/-- Parse the comma-separated members of a non-empty JSON object, up to and
including the closing brace, returning raw key-value pairs in source order. -/
def parseJFields : Nat → List Char → Option (List (String × JVal) × List Char)
  | 0, _ => none
  | f + 1, cs =>
    match skipJWs cs with
    | '"' :: r0 =>
      (parseJStr r0).bind (fun kp =>
        match skipJWs kp.2 with
        | ':' :: r2 =>
          (parseJValue f (skipJWs r2)).bind (fun p =>
            match skipJWs p.2 with
            | ',' :: r4 => (parseJFields f r4).map (fun q => ((String.mk kp.1, p.1) :: q.1, q.2))
            | '\x7d' :: r4 => some ([(String.mk kp.1, p.1)], r4)
            | _ => none)
        | _ => none)
    | _ => none

end

/-- Model of Python `json.loads`: parse one JSON document surrounded by
optional whitespace. `none` models a raised `JSONDecodeError`. -/
def json_loads (s : String) : Option JVal :=
  match parseJValue (2 * s.length + 2) (skipJWs s.data) with
  | some (v, rest) => if skipJWs rest = [] then some v else none
  | _ => none

/-- Lowercase hexadecimal digit character. -/
def hexDigit (n : Nat) : Char :=
  if n < 10 then Char.ofNat (48 + n) else Char.ofNat (87 + n)

/-- Four lowercase hexadecimal digits, as in a JSON `\uXXXX` escape. -/
def hex4 (n : Nat) : String :=
  String.mk [hexDigit (n / 4096 % 16), hexDigit (n / 256 % 16), hexDigit (n / 16 % 16), hexDigit (n % 16)]

/-- Escape one character the way Python `json.dumps` (default
`ensure_ascii=True`) does: short escapes for quote, backslash and common
controls, `\uXXXX` for other controls and all non-ASCII (with surrogate pairs
above the basic plane). -/
def jsonEscapeChar (c : Char) : String :=
  if c = '"' then "\\\""
  else if c = '\\' then "\\\\"
  else if c = '\n' then "\\n"
  else if c = '\r' then "\\r"
  else if c = '\t' then "\\t"
  else if c = '\x08' then "\\b"
  else if c = '\x0c' then "\\f"
  else if c.toNat < 0x20 then "\\u" ++ hex4 c.toNat
  else if c.toNat < 0x7f then String.singleton c
  else if c.toNat < 0x10000 then "\\u" ++ hex4 c.toNat
  else
    "\\u" ++ hex4 (0xD800 + (c.toNat - 0x10000) / 0x400) ++
      "\\u" ++ hex4 (0xDC00 + (c.toNat - 0x10000) % 0x400)

/-- Escape a whole string for JSON output. -/
def jsonEscape (s : String) : String := String.join (s.data.map jsonEscapeChar)

/-- A JSON string literal with surrounding quotes. -/
def jsonQuote (s : String) : String := "\"" ++ jsonEscape s ++ "\""

mutual

/-- Model of Python `json.dumps` with its default separators
(comma-space between items, colon-space between key and value). -/
def jsonDumps : JVal → String
  | .null => "null"
  | .bool true => "true"
  | .bool false => "false"
  | .num n => toString n
  | .str s => jsonQuote s
  | .arr xs => "[" ++ jsonDumpsItems xs ++ "]"
  | .obj fs => "\x7b" ++ jsonDumpsFields fs ++ "\x7d"

/-- Serialize array items, comma-space separated. -/
def jsonDumpsItems : List JVal → String
  | [] => ""
  | [x] => jsonDumps x
  | x :: y :: rest => jsonDumps x ++ ", " ++ jsonDumpsItems (y :: rest)

/-- Serialize object members, comma-space separated. -/
def jsonDumpsFields : List (String × JVal) → String
  | [] => ""
  | [(k, v)] => jsonQuote k ++ ": " ++ jsonDumps v
  | (k, v) :: f :: rest => jsonQuote k ++ ": " ++ jsonDumps v ++ ", " ++ jsonDumpsFields (f :: rest)

end

/-- Parse one dotted-quad octet the way Python `ipaddress` does: one to three
decimal digits, no leading zeros, value at most 255. -/
def parseOctet (s : String) : Option Nat :=
  if s.data = [] ∨ 3 < s.data.length ∨ ¬ s.data.all Char.isDigit then none
  else if s.data.head? = some '0' ∧ 1 < s.data.length then none
  else if digitsToNat s.data ≤ 255 then some (digitsToNat s.data) else none

/-- Model of stdlib `ipaddress.ip_address` restricted to IPv4 dotted-quad
input, giving the 32-bit value; `none` models a raised `ValueError` (IPv6
literals are not modelled; on them this model also fails to parse). -/
def ip_address_parse (s : String) : Option Nat :=
  match splitOnChar '.' s with
  | [a, b, c, d] => do
    let x ← parseOctet a
    let y ← parseOctet b
    let z ← parseOctet c
    let w ← parseOctet d
    pure (((x * 256 + y) * 256 + z) * 256 + w)
  | _ => none

/-- Parse a CIDR prefix length: decimal digits (leading zeros tolerated, as
in CPython), value at most 32. -/
def parsePrefixLen (s : String) : Option Nat :=
  if s.data = [] ∨ ¬ s.data.all Char.isDigit then none
  else if digitsToNat s.data ≤ 32 then some (digitsToNat s.data) else none

/-- Model of stdlib `ipaddress.ip_network(cidr, strict=False)` restricted to
IPv4 `a.b.c.d/len` or bare-address input, returning the masked network
address and the prefix length (netmask notation is not modelled). -/
def ip_network_parse (s : String) : Option (Nat × Nat) :=
  match splitOnChar '/' s with
  | [a] => (ip_address_parse a).map (fun ip => (ip, 32))
  | [a, p] => do
    let ip ← ip_address_parse a
    let pl ← parsePrefixLen p
    pure (ip / 2 ^ (32 - pl) * 2 ^ (32 - pl), pl)
  | _ => none

/-- Membership of an address in a parsed network: equality after masking to
the prefix length. -/
def net_contains (net : Nat × Nat) (a : Nat) : Bool :=
  a / 2 ^ (32 - net.2) = net.1 / 2 ^ (32 - net.2)

/-- The configured CIDR entries: comma-split, stripped, empties dropped
(app.py:215). -/
def cidr_entries (allowed_cidrs : String) : List String :=
  (((splitOnChar ',' allowed_cidrs)).map pyStrip).filter (fun c => c ≠ "")

/-- Embedding of `ip_allowed` (app.py:205): allow-all on an empty allow-list
or the literal `0.0.0.0/0`; otherwise deny an unparseable caller IP, and allow
exactly when some well-formed configured CIDR contains the IP (malformed
entries are logged and skipped). -/
def ip_allowed (caller_ip : String) (allowed_cidrs : String) : Bool :=
  if allowed_cidrs = "" then true
  else if pyStrip allowed_cidrs = "0.0.0.0/0" then true
  else
    match ip_address_parse caller_ip with
    | none => false
    | some a =>
      (cidr_entries allowed_cidrs).any (fun cidr =>
        match ip_network_parse cidr with
        | none => false
        | some net => net_contains net a)

/-- Resolution of one element of a list-shaped message content
(app.py:174-194): a string stands for itself; a dict contributes its `text`
field if that is a string, else its `content` field if that is a string, else
the string elements of its `parts` list; anything else contributes nothing. -/
def pieceOf (el : JVal) : List String :=
  match el with
  | .str s => [s]
  | .obj fs =>
    match jGet fs "text" with
    | some (.str t) => [t]
    | _ =>
      match jGet fs "content" with
      | some (.str c) => [c]
      | _ =>
        match jGet fs "parts" with
        | some (.arr ps) => ps.filterMap (fun p => match p with | .str s => some s | _ => none)
        | _ => []
  | _ => []

/-- The pieces accumulated by the loop over a list-shaped content
(app.py:173-194), in iteration order. -/
def collectPieces : List JVal → List String
  | [] => []
  | el :: rest => pieceOf el ++ collectPieces rest

/-- Embedding of `_extract_text_from_content` (app.py:138): normalize a
message content value to plain text. `JVal.null` models Python `None`. The
final branch models the `str(content)` fallback for numbers and booleans.
Totality of this function witnesses that normalization never raises. -/
def extract_text_from_content (content : JVal) : String :=
  match content with
  | .null => ""
  | .str s => s
  | .obj fs =>
    match jGet fs "text" with
    | some (.str t) => t
    | _ =>
      match jGet fs "content" with
      | some (.str c) => c
      | _ =>
        match jGet fs "parts" with
        | some (.arr ps) =>
          String.intercalate " " (ps.filterMap (fun p => match p with | .str s => some s | _ => none))
        | _ => ""
  | .arr els => pyStrip (String.intercalate " " (collectPieces els))
  | .num n => toString n
  | .bool b => if b then "True" else "False"

/-- Embedding of the user-utterance scan (app.py:315-320): the input list is
already in most-recent-first order; return the normalized content of the
first dict-shaped message with role `user` whose normalized content is
non-empty, else the empty string. -/
def find_user_input : List JVal → String
  | [] => ""
  | m :: rest =>
    match m with
    | .obj fs =>
      match jGet fs "role" with
      | some (.str r) =>
        if r = "user" then
          let ui := extract_text_from_content ((jGet fs "content").getD .null)
          if ui = "" then find_user_input rest else ui
        else find_user_input rest
      | _ => find_user_input rest
    | _ => find_user_input rest

/-- A message that qualifies for utterance extraction: dict-shaped, role
`user`, non-empty normalized content. -/
def isQualifyingUser (m : JVal) : Bool :=
  match m with
  | .obj fs =>
    match jGet fs "role" with
    | some (.str r) =>
      if r = "user" then
        if extract_text_from_content ((jGet fs "content").getD .null) = "" then false else true
      else false
    | _ => false
  | _ => false

/-- The normalized content of a dict-shaped message. -/
def userTextOf (m : JVal) : String :=
  match m with
  | .obj fs => extract_text_from_content ((jGet fs "content").getD .null)
  | _ => ""

/-- An uncaught Python exception (its type and message are not modelled). -/
inductive PyExn where
  | err : PyExn
deriving DecidableEq

/-- The HTTP-shaped result dict returned by the handler. -/
structure HttpResponse where
  statusCode : Nat
  headers : List (String × String)
  body : String
deriving DecidableEq

/-- Embedding of `make_response` (app.py:225): JSON content type and a
`json.dumps`-serialized body. -/
def make_response (status : Nat) (body : JVal) : HttpResponse :=
  ⟨status, [("Content-Type", "application/json")], jsonDumps body⟩

/-- The error body shape used by every error return in the handler. -/
def errorBody (message ty : String) : JVal :=
  .obj [("error", .obj [("message", .str message), ("type", .str ty)])]

/-- Fixed-size slicing of a character list, as done by
`response_text[i:i + chunk_size]` over `range(0, len(response_text),
chunk_size)` (app.py:248-249); meaningful for a positive chunk size. -/
def chunkChars (c : Nat) (cs : List Char) : List (List Char) :=
  if h : c = 0 ∨ cs = [] then []
  else cs.take c :: chunkChars c (cs.drop c)
termination_by cs.length
decreasing_by
  push_neg at h
  simp only [List.length_drop]
  have hpos : 0 < cs.length := List.length_pos.mpr h.2
  have hc : c ≠ 0 := h.1
  omega

/-- The successive string slices of the streaming loop, in original order. -/
def sse_segments (text : String) (c : Nat) : List String :=
  (chunkChars c text.data).map String.mk

/-- The per-chunk JSON payload of the streaming body (app.py:250-262). The
source stamps each chunk with `int(time.time())`; this model passes that
timestamp as the `created` parameter. -/
def chunk_payload (chat_id : String) (created : Int) (model_name seg : String) : JVal :=
  .obj [("id", .str chat_id), ("object", .str "chat.completion.chunk"),
        ("created", .num created), ("model", .str model_name),
        ("choices", .arr [.obj [("index", .num 0),
          ("delta", .obj [("content", .str seg)]),
          ("finish_reason", .null)]])]

/-- Embedding of `_build_sse_body` (app.py:233): for empty reply text the body
is exactly the termination marker; a zero chunk size makes `range` raise
(modelled as `Except.error`); a negative chunk size makes `range` empty, so
only the marker is emitted; otherwise each slice is framed as an SSE data
line and the marker is appended. -/
def build_sse_body (response_text chat_id model_name : String) (created : Int)
    (chunk_size : Int) : Except PyExn String :=
  if response_text = "" then .ok "data: [DONE]\n\n"
  else if chunk_size = 0 then .error .err
  else if chunk_size < 0 then .ok "data: [DONE]\n\n"
  else .ok (String.join ((sse_segments response_text chunk_size.toNat).map
      (fun seg => "data: " ++ jsonDumps (chunk_payload chat_id created model_name seg) ++ "\n\n"))
    ++ "data: [DONE]\n\n")

/-- The OpenAI-like non-streaming response object (app.py:360-375). -/
def chat_completion_out (chat_id response_text : String) (pt ct tt : Nat) : JVal :=
  .obj [("id", .str chat_id), ("object", .str "chat.completion"),
        ("choices", .arr [.obj [("index", .num 0),
          ("message", .obj [("role", .str "assistant"), ("content", .str response_text)]),
          ("finish_reason", .str "stop")]]),
        ("usage", .obj [("prompt_tokens", .num pt), ("completion_tokens", .num ct),
          ("total_tokens", .num tt)])]

/-- The streaming decision (app.py:379-384): the `stream` field must be the
boolean `True` (an identity test) or compare equal to the string `true`; any
value, or a missing field, selects the non-streaming encoding. -/
def stream_requested (payload : JVal) : Bool :=
  match payload with
  | .obj fs =>
    match jGet fs "stream" with
    | some (.bool true) => true
    | some (.str s) => s = "true"
    | _ => false
  | _ => false

/-- The `REQUIRE_API_KEY` flag resolution (app.py:286): lowercase membership
in the set containing `1`, `true` and `yes`. -/
def require_flag (raw : String) : Bool :=
  ["1", "true", "yes"].contains (pyLower raw)

/-- The bearer-token acceptance test of the API-key gate (app.py:306-308):
take the `Authorization` header, falling back to `authorization` when the
former is missing or empty; accept exactly when that value and the configured
key are non-empty and the value equals `Bearer ` followed by the key. -/
def auth_ok (headers : List (String × String)) (api_key : Option String) : Bool :=
  match orStr (pyGet headers "Authorization") (pyGet headers "authorization"), api_key with
  | some a, some k => if a = "" then false else if k = "" then false else a = "Bearer " ++ k
  | _, _ => false

/-- The raw `body` field of the inbound event: missing, a string, or an
already-structured value. -/
inductive BodyVal where
  | absent : BodyVal
  | str (s : String) : BodyVal
  | jval (j : JVal) : BodyVal

/-- Embedding of the body-parse stage (app.py:295-302): a string body is
JSON-decoded (empty string giving an empty payload), a structured body is
used as-is (falsy values giving an empty payload), a missing body gives an
empty payload; `none` models the caught decode failure. -/
def parse_body (b : BodyVal) : Option JVal :=
  match b with
  | .absent => some (.obj [])
  | .str s => if s = "" then some (.obj []) else json_loads s
  | .jval j => some (if jTruthy j then j else .obj [])

/-- Embedding of the reversed iteration over the `messages` payload field
(app.py:312-316, the `reversed` call on `payload.get` with a `[]` default):
the message sequence in most-recent-first order. `payload.get` on a non-dict
payload raises `AttributeError`, and `reversed` of a truthy number or boolean
raises `TypeError`; both are modelled as `Except.error`. `reversed` of a
string yields its characters and `reversed` of a dict yields its keys. -/
def extract_messages (payload : JVal) : Except PyExn (List JVal) :=
  match payload with
  | .obj fs =>
    let m := (jGet fs "messages").getD .null
    let m := if jTruthy m then m else .arr []
    match m with
    | .arr xs => .ok xs.reverse
    | .str s => .ok (s.data.reverse.map (fun ch => .str (String.singleton ch)))
    | .obj fs2 => .ok (fs2.reverse.map (fun p => .str p.1))
    | _ => .error .err
  | _ => .error .err

/-- The `SSE_CHUNK_SIZE` resolution (app.py:388-392): missing or empty
environment value gives 64, an unparseable value is caught and gives 64. -/
def resolve_chunk_size (o : Option String) : Int :=
  match o with
  | none => 64
  | some s => if s = "" then 64 else (pyInt s).getD 64

/-- The inbound event envelope: headers (possibly absent), body, the two
platform shapes of the source IP, and the path fields (the path is only
logged, never branched on). -/
structure Event where
  headers : Option (List (String × String))
  body : BodyVal
  sourceIpHttp : Option String
  sourceIpIdentity : Option String
  rawPath : Option String
  path : Option String

/-- The `requestContext` fallbacks of caller-IP extraction (app.py:126-135). -/
def extract_caller_ip_ctx (event : Event) : String :=
  match event.sourceIpHttp with
  | some ip => ip
  | none =>
    match event.sourceIpIdentity with
    | some ip => ip
    | none => ""

/-- Embedding of `extract_caller_ip` (app.py:117): prefer the first entry of a
non-empty `X-Forwarded-For` (or `x-forwarded-for`) header, trimmed; else the
platform source-IP fields; else the empty string. -/
def extract_caller_ip (event : Event) : String :=
  let headers := event.headers.getD []
  match orStr (pyGet headers "X-Forwarded-For") (pyGet headers "x-forwarded-for") with
  | some s => if s = "" then extract_caller_ip_ctx event else pyStrip ((splitOnChar ',' s).headD "")
  | none => extract_caller_ip_ctx event

/-- The environment configuration read by the handler (app.py:285-287,
387-388), after defaulting: `require_api_key_raw` holds
the value of `REQUIRE_API_KEY` defaulted to `false`, and `allowed_caller_cidr`
holds the value of `ALLOWED_CALLER_CIDR` defaulted to empty. `LOG_REQUESTS` only controls
logging and is not modelled. -/
structure Env where
  allowed_caller_cidr : String
  require_api_key_raw : String
  api_key : Option String
  model_name : Option String
  sse_chunk_size : Option String

/-- Embedding of `lambda_handler` (app.py:270): IP gate, body parse, API-key
gate, utterance extraction, engine call, encode. The engine is the external
collaborator: `elizaInit` is the outcome of `get_eliza_state()` (lazy
initialization, called outside any try block) and `gen` is the outcome of
`generate_response` on the engine state and utterance (called inside a try
block). `uuidHex` and `created` model the fresh uuid and the clock. A result
of `Except.error` models an exception propagating out of `lambda_handler`;
logging side effects are not modelled. -/
def lambda_handler (E : Type) (env : Env) (elizaInit : Except PyExn E)
    (gen : E → String → Except PyExn String) (uuidHex : String) (created : Int)
    (event : Event) : Except PyExn HttpResponse :=
  let caller_ip := extract_caller_ip event
  if ip_allowed caller_ip env.allowed_caller_cidr then
    match parse_body event.body with
    | none => .ok (make_response 400 (errorBody "Malformed JSON" "bad_request"))
    | some payload =>
      if require_flag env.require_api_key_raw && !(auth_ok (event.headers.getD []) env.api_key) then
        .ok (make_response 401 (errorBody "Invalid or missing API key" "unauthorized"))
      else
        match extract_messages payload with
        | .error e => .error e
        | .ok rmsgs =>
          let user_input := find_user_input rmsgs
          if user_input = "" then
            .ok (make_response 400 (errorBody "No user message provided" "bad_request"))
          else
            match elizaInit with
            | .error e => .error e
            | .ok st =>
              match gen st user_input with
              | .error _ =>
                .ok (make_response 500 (errorBody "Internal error generating response" "server_error"))
              | .ok raw =>
                let response_text := pyReplace (pyReplace raw "Eliza: " "") "\nYou: " ""
                let prompt_tokens := estimate_tokens user_input
                let completion_tokens := estimate_tokens response_text
                let chat_id := "eliza-" ++ uuidHex
                if stream_requested payload then
                  (build_sse_body response_text chat_id (env.model_name.getD "eliza-lambda")
                      created (resolve_chunk_size env.sse_chunk_size)).map
                    (fun sse => ⟨200, [("Content-Type", "text/event-stream; charset=utf-8"),
                      ("Cache-Control", "no-cache")], sse⟩)
                else
                  .ok (make_response 200 (chat_completion_out chat_id response_text
                    prompt_tokens completion_tokens (prompt_tokens + completion_tokens)))
  else .ok (make_response 403 (errorBody "Caller IP not allowed" "forbidden"))

/-! Supporting lemmas. -/

theorem chunkChars_flatten (c : Nat) (hc : c ≠ 0) : ∀ cs : List Char,
    (chunkChars c cs).flatten = cs := by
  intro cs
  induction cs using chunkChars.induct c with
  | case1 cs h =>
    rcases h with h | h
    · exact absurd h hc
    · subst h; simp [chunkChars]
  | case2 cs h ih =>
    rw [chunkChars, dif_neg h, List.flatten_cons, ih, List.take_append_drop]

theorem chunkChars_length (c : Nat) (hc : c ≠ 0) : ∀ cs : List Char, cs ≠ [] →
    (chunkChars c cs).length = (cs.length - 1) / c + 1 := by
  intro cs
  induction cs using chunkChars.induct c with
  | case1 cs h =>
    intro hcs
    rcases h with h | h
    exacts [absurd h hc, absurd h hcs]
  | case2 cs h ih =>
    intro hcs
    rw [chunkChars, dif_neg h]
    by_cases hd : cs.drop c = []
    · have hle : cs.length ≤ c := by
        have := List.drop_eq_nil_iff.mp hd
        omega
      have hpos := List.length_pos.mpr hcs
      rw [hd]
      have h0 : chunkChars c ([] : List Char) = [] := by simp [chunkChars]
      rw [h0]
      simp only [List.length_cons, List.length_nil]
      have h2 : (cs.length - 1) / c = 0 := Nat.div_eq_of_lt (by omega)
      omega
    · have hgt : c < cs.length := by
        by_contra hle
        push_neg at hle
        exact hd (List.drop_eq_nil_iff.mpr hle)
      simp only [List.length_cons, ih hd, List.length_drop]
      have he : cs.length - 1 = (cs.length - c - 1) + c := by omega
      rw [he, Nat.add_div_right _ (Nat.pos_of_ne_zero hc)]

theorem data_eq_nil (s : String) (h : s.data = []) : s = "" := by
  cases s with
  | mk d => cases h; rfl

theorem sse_segments_join (text : String) (c : Nat) (hc : c ≠ 0) :
    String.join (sse_segments text c) = text := by
  rw [sse_segments, String.join_eq]
  simp only [List.map_map]
  have hcomp : (String.data ∘ String.mk) = id := rfl
  rw [hcomp, List.map_id, chunkChars_flatten c hc text.data]

theorem sse_segments_length (text : String) (c : Nat) (hc : c ≠ 0) (ht : text ≠ "") :
    (sse_segments text c).length = (text.length + c - 1) / c := by
  have hdata : text.data ≠ [] := fun h => ht (data_eq_nil text h)
  rw [sse_segments, List.length_map, chunkChars_length c hc text.data hdata]
  have hpos : 0 < text.data.length := List.length_pos.mpr hdata
  have hL : text.length = text.data.length := rfl
  rw [hL]
  have he : text.data.length + c - 1 = (text.data.length - 1) + c := by omega
  rw [he, Nat.add_div_right _ (Nat.pos_of_ne_zero hc)]

theorem collectPieces_eq_flatten : ∀ els : List JVal,
    collectPieces els = (els.map pieceOf).flatten := by
  intro els
  induction els with
  | nil => rfl
  | cons e rest ih => simp [collectPieces, ih]

theorem find_user_input_eq_find : ∀ rms : List JVal,
    find_user_input rms = ((rms.find? isQualifyingUser).map userTextOf).getD "" := by
  intro rms
  induction rms with
  | nil => rfl
  | cons m rest ih =>
    cases m with
    | obj fs =>
      simp only [find_user_input, isQualifyingUser, List.find?_cons]
      cases hr : jGet fs "role" with
      | none => simpa using ih
      | some rv =>
        cases rv with
        | str r =>
          by_cases hru : r = "user"
          · subst hru
            simp only [if_pos rfl]
            by_cases hui : extract_text_from_content ((jGet fs "content").getD .null) = ""
            · simp only [hui, if_pos rfl]
              simpa using ih
            · simp only [if_neg hui]
              simp [userTextOf]
          · simp only [if_neg hru]
            simpa using ih
        | null => simpa using ih
        | bool b => simpa using ih
        | num n => simpa using ih
        | arr xs => simpa using ih
        | obj fs2 => simpa using ih
    | null => simpa [find_user_input, isQualifyingUser, List.find?_cons] using ih
    | bool b => simpa [find_user_input, isQualifyingUser, List.find?_cons] using ih
    | num n => simpa [find_user_input, isQualifyingUser, List.find?_cons] using ih
    | str s => simpa [find_user_input, isQualifyingUser, List.find?_cons] using ih
    | arr xs => simpa [find_user_input, isQualifyingUser, List.find?_cons] using ih

theorem lambda_handler_happy (E : Type) (env : Env) (st : E)
    (gen : E → String → Except PyExn String) (uuidHex : String) (created : Int)
    (event : Event) (payload : JVal) (rmsgs : List JVal) (raw : String)
    (hip : ip_allowed (extract_caller_ip event) env.allowed_caller_cidr = true)
    (hparse : parse_body event.body = some payload)
    (hauth : (require_flag env.require_api_key_raw &&
      !(auth_ok (event.headers.getD []) env.api_key)) = false)
    (hmsgs : extract_messages payload = .ok rmsgs)
    (hui : find_user_input rmsgs ≠ "")
    (hgen : gen st (find_user_input rmsgs) = .ok raw) :
    lambda_handler E env (.ok st) gen uuidHex created event =
      (if stream_requested payload then
        (build_sse_body (pyReplace (pyReplace raw "Eliza: " "") "\nYou: " "")
            ("eliza-" ++ uuidHex) (env.model_name.getD "eliza-lambda") created
            (resolve_chunk_size env.sse_chunk_size)).map
          (fun sse => ⟨200, [("Content-Type", "text/event-stream; charset=utf-8"),
            ("Cache-Control", "no-cache")], sse⟩)
      else
        .ok (make_response 200 (chat_completion_out ("eliza-" ++ uuidHex)
          (pyReplace (pyReplace raw "Eliza: " "") "\nYou: " "")
          (estimate_tokens (find_user_input rmsgs))
          (estimate_tokens (pyReplace (pyReplace raw "Eliza: " "") "\nYou: " ""))
          (estimate_tokens (find_user_input rmsgs) +
            estimate_tokens (pyReplace (pyReplace raw "Eliza: " "") "\nYou: " ""))))) := by
  rw [lambda_handler]
  simp only [hip, if_true, hparse, hauth, Bool.false_eq_true, if_false, hmsgs, hui, hgen]

/-! Fixtures for witnesses and counterexamples. -/

/-- An open configuration: no allow-list, no API-key requirement. -/
def env_open : Env := ⟨"", "false", none, none, none⟩

/-- A configuration with API-key enforcement enabled and key `secret`. -/
def env_auth : Env := ⟨"", "true", some "secret", none, none⟩

/-- A user message with content `Hello`. -/
def msg_user_hello : JVal := .obj [("role", .str "user"), ("content", .str "Hello")]

/-- An event with a structured body carrying one user message. -/
def event_hello : Event :=
  ⟨some [], .jval (.obj [("messages", .arr [msg_user_hello])]), none, none, none, none⟩

/-- An engine whose reply generation always raises. -/
def gen_fail : Unit → String → Except PyExn String := fun _ _ => Except.error PyExn.err

/-- An engine that always replies with a fixed Eliza-prefixed line. -/
def gen_echo : Unit → String → Except PyExn String :=
  fun _ _ => Except.ok "Eliza: How do you do."

/-! Claims. -/

/-- C1, counterexample: on a well-formed allowed request, when engine
initialization fails, `lambda_handler` does not resolve to a 500
`server_error` response — the initialization exception propagates to the
caller, contradicting the claim. -/
theorem c1_counterexample :
    lambda_handler Unit env_open (Except.error PyExn.err) gen_echo "u1" 0 event_hello =
      Except.error PyExn.err
    ∧ lambda_handler Unit env_open (Except.error PyExn.err) gen_echo "u1" 0 event_hello ≠
      Except.ok (make_response 500 (errorBody "Internal error generating response" "server_error")) := by
  refine ⟨rfl, ?_⟩
  intro h
  rw [show lambda_handler Unit env_open (Except.error PyExn.err) gen_echo "u1" 0 event_hello =
    Except.error PyExn.err from rfl] at h
  cases h

/-- C1, amended: an exception raised during engine initialization propagates
past `lambda_handler` uncaught (the initialization call sits outside every
try block); only a failure during reply generation is caught and translated
into a structured 500 `server_error` response. -/
theorem c1_amended (E : Type) (env : Env) (st : E)
    (gen : E → String → Except PyExn String) (uuidHex : String) (created : Int)
    (event : Event) (payload : JVal) (rmsgs : List JVal)
    (hip : ip_allowed (extract_caller_ip event) env.allowed_caller_cidr = true)
    (hparse : parse_body event.body = some payload)
    (hauth : (require_flag env.require_api_key_raw &&
      !(auth_ok (event.headers.getD []) env.api_key)) = false)
    (hmsgs : extract_messages payload = .ok rmsgs)
    (hui : find_user_input rmsgs ≠ "")
    (hgen : gen st (find_user_input rmsgs) = Except.error PyExn.err) :
    lambda_handler E env (Except.error PyExn.err) gen uuidHex created event =
      Except.error PyExn.err
    ∧ lambda_handler E env (Except.ok st) gen uuidHex created event =
      Except.ok (make_response 500 (errorBody "Internal error generating response" "server_error")) := by
  constructor
  · rw [lambda_handler]
    simp only [hip, if_true, hparse, hauth, Bool.false_eq_true, if_false, hmsgs, hui]
  · rw [lambda_handler]
    simp only [hip, if_true, hparse, hauth, Bool.false_eq_true, if_false, hmsgs, hui, hgen]

/-- C1, witness: the amended claim at a concrete request. -/
theorem c1_witness :
    lambda_handler Unit env_open (Except.error PyExn.err) gen_fail "u1" 0 event_hello =
      Except.error PyExn.err
    ∧ lambda_handler Unit env_open (Except.ok ()) gen_fail "u1" 0 event_hello =
      Except.ok (make_response 500 (errorBody "Internal error generating response" "server_error")) :=
  c1_amended Unit env_open () gen_fail "u1" 0 event_hello
    (.obj [("messages", .arr [msg_user_hello])]) [msg_user_hello]
    rfl rfl rfl rfl (by decide) rfl

/-- C2, counterexample: the token estimator truncates rather than rounds, so
`estimate("one two three")` is 3, not the claimed
`max(1, round(3 * 1.33)) = 4`. -/
theorem c2_counterexample :
    estimate_tokens "one two three" = 3 ∧ estimate_tokens "one two three" ≠ 4 := by
  constructor
  · decide
  · decide

/-- C2, amended: the token estimator returns 0 on empty text and
`max(1, int(wordCount(text) * 1.33))` on non-empty text, where the binary64
product is truncated toward zero (so `estimate("") = 0` but
`estimate("one two three") = 3`); the non-streaming result satisfies
`usage.total_tokens = usage.prompt_tokens + usage.completion_tokens`. -/
theorem c2_amended (text : String) (htext : text ≠ "") (E : Type) (env : Env) (st : E)
    (gen : E → String → Except PyExn String) (uuidHex : String) (created : Int)
    (event : Event) (payload : JVal) (rmsgs : List JVal) (raw : String)
    (hip : ip_allowed (extract_caller_ip event) env.allowed_caller_cidr = true)
    (hparse : parse_body event.body = some payload)
    (hauth : (require_flag env.require_api_key_raw &&
      !(auth_ok (event.headers.getD []) env.api_key)) = false)
    (hmsgs : extract_messages payload = .ok rmsgs)
    (hui : find_user_input rmsgs ≠ "")
    (hgen : gen st (find_user_input rmsgs) = .ok raw)
    (hstream : stream_requested payload = false) :
    estimate_tokens "" = 0
    ∧ estimate_tokens "one two three" = 3
    ∧ estimate_tokens text = Nat.max 1 (pyMul133 (pySplitWs text).length / 2 ^ 52)
    ∧ lambda_handler E env (.ok st) gen uuidHex created event =
        .ok (make_response 200 (chat_completion_out ("eliza-" ++ uuidHex)
          (pyReplace (pyReplace raw "Eliza: " "") "\nYou: " "")
          (estimate_tokens (find_user_input rmsgs))
          (estimate_tokens (pyReplace (pyReplace raw "Eliza: " "") "\nYou: " ""))
          (estimate_tokens (find_user_input rmsgs) +
            estimate_tokens (pyReplace (pyReplace raw "Eliza: " "") "\nYou: " "")))) := by
  refine ⟨rfl, by decide, ?_, ?_⟩
  · rw [estimate_tokens, if_neg htext]
  · have h := lambda_handler_happy E env st gen uuidHex created event payload rmsgs raw
      hip hparse hauth hmsgs hui hgen
    rw [hstream] at h
    simpa using h

/-- C2, witness: the amended claim at a concrete request whose prompt is
`Hello` and whose reply is `How do you do.`. -/
theorem c2_witness :
    estimate_tokens "" = 0
    ∧ estimate_tokens "one two three" = 3
    ∧ estimate_tokens "one" = Nat.max 1 (pyMul133 (pySplitWs "one").length / 2 ^ 52)
    ∧ lambda_handler Unit env_open (.ok ()) gen_echo "u1" 0 event_hello =
        .ok (make_response 200 (chat_completion_out ("eliza-" ++ "u1")
          (pyReplace (pyReplace "Eliza: How do you do." "Eliza: " "") "\nYou: " "")
          (estimate_tokens (find_user_input [msg_user_hello]))
          (estimate_tokens (pyReplace (pyReplace "Eliza: How do you do." "Eliza: " "") "\nYou: " ""))
          (estimate_tokens (find_user_input [msg_user_hello]) +
            estimate_tokens (pyReplace (pyReplace "Eliza: How do you do." "Eliza: " "") "\nYou: " "")))) :=
  c2_amended "one" (by decide) Unit env_open () gen_echo "u1" 0 event_hello
    (.obj [("messages", .arr [msg_user_hello])]) [msg_user_hello] "Eliza: How do you do."
    rfl rfl rfl rfl (by decide) rfl rfl

/-- C3, counterexample: with API-key enforcement enabled, a missing
Authorization header and an unparseable body, the handler answers 400
`bad_request` (Malformed JSON), not the claimed 401 `unauthorized`: the body
is parsed before the bearer-token check runs. -/
theorem c3_counterexample :
    lambda_handler Unit env_auth (Except.ok ()) gen_echo "u1" 0
        ⟨some [], .str "\x7b", none, none, none, none⟩ =
      Except.ok (make_response 400 (errorBody "Malformed JSON" "bad_request"))
    ∧ lambda_handler Unit env_auth (Except.ok ()) gen_echo "u1" 0
        ⟨some [], .str "\x7b", none, none, none, none⟩ ≠
      Except.ok (make_response 401 (errorBody "Invalid or missing API key" "unauthorized")) := by
  constructor
  · rfl
  · intro h
    rw [show lambda_handler Unit env_auth (Except.ok ()) gen_echo "u1" 0
        ⟨some [], .str "\x7b", none, none, none, none⟩ =
      Except.ok (make_response 400 (errorBody "Malformed JSON" "bad_request")) from rfl] at h
    have := Except.ok.inj h
    rw [make_response, make_response] at this
    have hb := congrArg HttpResponse.statusCode this
    simp at hb

/-- C3, amended: stage order is IP gate, then body parse, then bearer-token
gate: an IP-denied request gets 403 before any parsing, and a request passing
the IP gate with an unparseable body gets 400 `bad_request` (Malformed JSON)
regardless of API-key enforcement or Authorization headers. -/
theorem c3_amended (E : Type) (env : Env) (elizaInit : Except PyExn E)
    (gen : E → String → Except PyExn String) (uuidHex : String) (created : Int)
    (event : Event) (hparse : parse_body event.body = none) :
    (ip_allowed (extract_caller_ip event) env.allowed_caller_cidr = true →
      lambda_handler E env elizaInit gen uuidHex created event =
        .ok (make_response 400 (errorBody "Malformed JSON" "bad_request")))
    ∧ (ip_allowed (extract_caller_ip event) env.allowed_caller_cidr = false →
      lambda_handler E env elizaInit gen uuidHex created event =
        .ok (make_response 403 (errorBody "Caller IP not allowed" "forbidden"))) := by
  constructor
  · intro hip
    rw [lambda_handler]
    simp only [hip, if_true, hparse]
  · intro hip
    rw [lambda_handler]
    simp only [hip, Bool.false_eq_true, if_false]

/-- C3, witness: the amended claim at the concrete unparseable body, with
API-key enforcement enabled and no Authorization header. -/
theorem c3_witness :
    (ip_allowed (extract_caller_ip ⟨some [], .str "\x7b", none, none, none, none⟩)
        env_auth.allowed_caller_cidr = true →
      lambda_handler Unit env_auth (Except.ok ()) gen_echo "u1" 0
          ⟨some [], .str "\x7b", none, none, none, none⟩ =
        .ok (make_response 400 (errorBody "Malformed JSON" "bad_request")))
    ∧ (ip_allowed (extract_caller_ip ⟨some [], .str "\x7b", none, none, none, none⟩)
        env_auth.allowed_caller_cidr = false →
      lambda_handler Unit env_auth (Except.ok ()) gen_echo "u1" 0
          ⟨some [], .str "\x7b", none, none, none, none⟩ =
        .ok (make_response 403 (errorBody "Caller IP not allowed" "forbidden"))) :=
  c3_amended Unit env_auth (Except.ok ()) gen_echo "u1" 0
    ⟨some [], .str "\x7b", none, none, none, none⟩ rfl

theorem collectPieces_append (l1 l2 : List JVal) :
    collectPieces (l1 ++ l2) = collectPieces l1 ++ collectPieces l2 := by
  induction l1 with
  | nil => rfl
  | cons e rest ih => simp [collectPieces, ih]

theorem intercalate_singleton (sep x : String) : String.intercalate sep [x] = x := rfl

/-- C4, counterexample: a sequence content whose middle element resolves to
the empty string normalizes to `a  b` (the empty piece is joined too,
yielding a double space), not `a b` as predicted by the rule of the claim
that only non-empty pieces are concatenated. -/
theorem c4_counterexample :
    extract_text_from_content (.arr [.str "a", .str "", .str "b"]) = "a  b"
    ∧ extract_text_from_content (.arr [.str "a", .str "", .str "b"]) ≠ "a b" := by
  constructor
  · rfl
  · decide

/-- C4, amended: for sequence-shaped content, each element is resolved
(string passthrough; object resolution via `text`, `content` or `parts`), and
ALL resolved pieces — including empty ones — are joined with single spaces,
after which the result is trimmed; elements of unrecognized shape are
silently dropped; for a multipart list of one text part and one non-text part
the result is the trim of the value of the text part; normalization is a total
function into strings (it never raises). -/
theorem c4_amended (els pre post : List JVal) (t : String) (u : JVal)
    (hu : pieceOf u = []) :
    extract_text_from_content (.arr els) =
      pyStrip (String.intercalate " " ((els.map pieceOf).flatten))
    ∧ extract_text_from_content (.arr (pre ++ u :: post)) =
      extract_text_from_content (.arr (pre ++ post))
    ∧ extract_text_from_content (.arr [.obj [("type", .str "text"), ("text", .str t)], u]) =
      pyStrip t := by
  refine ⟨?_, ?_, ?_⟩
  · show pyStrip (String.intercalate " " (collectPieces els)) = _
    rw [collectPieces_eq_flatten]
  · show pyStrip (String.intercalate " " (collectPieces (pre ++ u :: post))) =
      pyStrip (String.intercalate " " (collectPieces (pre ++ post)))
    rw [collectPieces_append, collectPieces_append, collectPieces, hu, List.nil_append]
  · show pyStrip (String.intercalate " "
      (collectPieces [.obj [("type", .str "text"), ("text", .str t)], u])) = pyStrip t
    rw [collectPieces, collectPieces, collectPieces, hu]
    rw [show pieceOf (.obj [("type", .str "text"), ("text", .str t)]) = [t] from rfl]
    simp [intercalate_singleton]

/-- C4, witness: the amended claim at a concrete multipart content with one
text part and one image part. -/
theorem c4_witness :
    extract_text_from_content (.arr [.str "x", .str "y"]) =
      pyStrip (String.intercalate " " ((([.str "x", .str "y"] : List JVal).map pieceOf).flatten))
    ∧ extract_text_from_content
        (.arr ([.str "x"] ++ .obj [("type", .str "image_url"),
          ("image_url", .obj [("url", .str "u")])] :: [.str "y"])) =
      extract_text_from_content (.arr ([.str "x"] ++ [.str "y"]))
    ∧ extract_text_from_content (.arr [.obj [("type", .str "text"), ("text", .str "Hello")],
        .obj [("type", .str "image_url"), ("image_url", .obj [("url", .str "u")])]]) =
      pyStrip "Hello" :=
  c4_amended [.str "x", .str "y"] [.str "x"] [.str "y"] "Hello"
    (.obj [("type", .str "image_url"), ("image_url", .obj [("url", .str "u")])]) rfl

/-- C5: for a non-empty reply of length `L` and chunk size `C > 0`, the
streaming body is exactly the `ceil(L / C)` SSE-framed content chunks in
original left-to-right order followed by exactly one `data: [DONE]` line, and
concatenating the chunk `delta.content` slices in order reconstructs the
reply; for an empty reply the body is exactly the termination marker. -/
theorem c5_stream_body (replyText chatId model : String) (created : Int) (C : Nat)
    (hC : 0 < C) (hR : replyText ≠ "") :
    build_sse_body "" chatId model created (C : Int) = .ok "data: [DONE]\n\n"
    ∧ build_sse_body replyText chatId model created (C : Int) =
        .ok (String.join ((sse_segments replyText C).map
          (fun seg => "data: " ++ jsonDumps (chunk_payload chatId created model seg) ++ "\n\n"))
          ++ "data: [DONE]\n\n")
    ∧ (sse_segments replyText C).length = (replyText.length + C - 1) / C
    ∧ String.join (sse_segments replyText C) = replyText := by
  have h0 : ¬((C : Int) = 0) := by exact_mod_cast hC.ne'
  have h1 : ¬((C : Int) < 0) := by omega
  refine ⟨?_, ?_, ?_, ?_⟩
  · rw [build_sse_body, if_pos rfl]
  · rw [build_sse_body, if_neg hR, if_neg h0, if_neg h1, Int.toNat_natCast]
  · exact sse_segments_length replyText C (Nat.pos_iff_ne_zero.mp hC) hR
  · exact sse_segments_join replyText C (Nat.pos_iff_ne_zero.mp hC)

/-- C5, witness: the streaming contract at reply `hello world` with chunk
size 4 (three chunks). -/
theorem c5_witness :
    build_sse_body "" "cid" "m" 9 ((4 : Nat) : Int) = .ok "data: [DONE]\n\n"
    ∧ build_sse_body "hello world" "cid" "m" 9 ((4 : Nat) : Int) =
        .ok (String.join ((sse_segments "hello world" 4).map
          (fun seg => "data: " ++ jsonDumps (chunk_payload "cid" 9 "m" seg) ++ "\n\n"))
          ++ "data: [DONE]\n\n")
    ∧ (sse_segments "hello world" 4).length = ("hello world".length + 4 - 1) / 4
    ∧ String.join (sse_segments "hello world" 4) = "hello world" :=
  c5_stream_body "hello world" "cid" "m" 9 4 (by decide) (by decide)

theorem extract_messages_of_arr (fs : List (String × JVal)) (msgs : List JVal)
    (h : jGet fs "messages" = some (.arr msgs)) :
    extract_messages (.obj fs) = .ok msgs.reverse := by
  cases msgs with
  | nil => simp [extract_messages, h, jTruthy]
  | cons m rest => simp [extract_messages, h, jTruthy]

/-- C6: utterance extraction scans from most recent to oldest and returns the
normalized content of the first user-role message whose normalized content is
non-empty, ignoring system and assistant messages (stated unconditionally as
the `find?`-characterization over the reversed history); when no such message
exists the handler answers 400 `bad_request` with message
`No user message provided`, a response distinct from the malformed-JSON
response. -/
theorem c6_latest_user (msgs : List JVal) (E : Type) (env : Env)
    (elizaInit : Except PyExn E) (gen : E → String → Except PyExn String)
    (uuidHex : String) (created : Int) (event : Event) (fs : List (String × JVal))
    (hip : ip_allowed (extract_caller_ip event) env.allowed_caller_cidr = true)
    (hparse : parse_body event.body = some (.obj fs))
    (hauth : (require_flag env.require_api_key_raw &&
      !(auth_ok (event.headers.getD []) env.api_key)) = false)
    (hmsgs : jGet fs "messages" = some (.arr msgs)) :
    find_user_input msgs.reverse =
      ((msgs.reverse.find? isQualifyingUser).map userTextOf).getD ""
    ∧ (msgs.reverse.find? isQualifyingUser = none →
        lambda_handler E env elizaInit gen uuidHex created event =
          .ok (make_response 400 (errorBody "No user message provided" "bad_request")))
    ∧ make_response 400 (errorBody "No user message provided" "bad_request") ≠
      make_response 400 (errorBody "Malformed JSON" "bad_request") := by
  have hchar := find_user_input_eq_find msgs.reverse
  refine ⟨hchar, ?_, by decide⟩
  intro hnone
  have hempty : find_user_input msgs.reverse = "" := by rw [hchar, hnone]; rfl
  rw [lambda_handler]
  simp only [hip, if_true, hparse, hauth, Bool.false_eq_true, if_false,
    extract_messages_of_arr fs msgs hmsgs, hempty]

/-- C6, witness: two concrete histories. In the first, the latest non-empty
user message (`Hello`) is followed by an assistant message and then a user
message with empty content; the characterization pins the extraction to
exactly that user message, skipping both. In the second, a system message, a
user message with empty content and an assistant message leave no qualifying
user message, and the handler yields the 400 response. -/
theorem c6_witness :
    (find_user_input ([msg_user_hello,
        JVal.obj [("role", .str "assistant"), ("content", .str "a")],
        .obj [("role", .str "user"), ("content", .str "")]] : List JVal).reverse =
      ((([msg_user_hello,
        JVal.obj [("role", .str "assistant"), ("content", .str "a")],
        .obj [("role", .str "user"), ("content", .str "")]] : List JVal).reverse.find?
          isQualifyingUser).map userTextOf).getD ""
    ∧ (([msg_user_hello,
        JVal.obj [("role", .str "assistant"), ("content", .str "a")],
        .obj [("role", .str "user"), ("content", .str "")]] : List JVal).reverse.find?
          isQualifyingUser = none →
        lambda_handler Unit env_open (Except.ok ()) gen_echo "u1" 0
          ⟨some [], .jval (.obj [("messages", .arr [msg_user_hello,
            .obj [("role", .str "assistant"), ("content", .str "a")],
            .obj [("role", .str "user"), ("content", .str "")]])]), none, none, none, none⟩ =
          .ok (make_response 400 (errorBody "No user message provided" "bad_request")))
    ∧ make_response 400 (errorBody "No user message provided" "bad_request") ≠
      make_response 400 (errorBody "Malformed JSON" "bad_request"))
    ∧ (find_user_input ([JVal.obj [("role", .str "system"), ("content", .str "s")],
        .obj [("role", .str "user"), ("content", .str "")],
        .obj [("role", .str "assistant"), ("content", .str "a")]] : List JVal).reverse =
      ((([JVal.obj [("role", .str "system"), ("content", .str "s")],
        .obj [("role", .str "user"), ("content", .str "")],
        .obj [("role", .str "assistant"), ("content", .str "a")]] : List JVal).reverse.find?
          isQualifyingUser).map userTextOf).getD ""
    ∧ (([JVal.obj [("role", .str "system"), ("content", .str "s")],
        .obj [("role", .str "user"), ("content", .str "")],
        .obj [("role", .str "assistant"), ("content", .str "a")]] : List JVal).reverse.find?
          isQualifyingUser = none →
        lambda_handler Unit env_open (Except.ok ()) gen_echo "u1" 0
          ⟨some [], .jval (.obj [("messages", .arr [.obj [("role", .str "system"), ("content", .str "s")],
            .obj [("role", .str "user"), ("content", .str "")],
            .obj [("role", .str "assistant"), ("content", .str "a")]])]), none, none, none, none⟩ =
          .ok (make_response 400 (errorBody "No user message provided" "bad_request")))
    ∧ make_response 400 (errorBody "No user message provided" "bad_request") ≠
      make_response 400 (errorBody "Malformed JSON" "bad_request")) :=
  ⟨c6_latest_user
    [msg_user_hello, .obj [("role", .str "assistant"), ("content", .str "a")],
      .obj [("role", .str "user"), ("content", .str "")]]
    Unit env_open (Except.ok ()) gen_echo "u1" 0
    ⟨some [], .jval (.obj [("messages", .arr [msg_user_hello,
      .obj [("role", .str "assistant"), ("content", .str "a")],
      .obj [("role", .str "user"), ("content", .str "")]])]), none, none, none, none⟩
    [("messages", .arr [msg_user_hello,
      .obj [("role", .str "assistant"), ("content", .str "a")],
      .obj [("role", .str "user"), ("content", .str "")]])]
    rfl rfl rfl rfl,
  c6_latest_user
    [.obj [("role", .str "system"), ("content", .str "s")],
      .obj [("role", .str "user"), ("content", .str "")],
      .obj [("role", .str "assistant"), ("content", .str "a")]]
    Unit env_open (Except.ok ()) gen_echo "u1" 0
    ⟨some [], .jval (.obj [("messages", .arr [.obj [("role", .str "system"), ("content", .str "s")],
      .obj [("role", .str "user"), ("content", .str "")],
      .obj [("role", .str "assistant"), ("content", .str "a")]])]), none, none, none, none⟩
    [("messages", .arr [.obj [("role", .str "system"), ("content", .str "s")],
      .obj [("role", .str "user"), ("content", .str "")],
      .obj [("role", .str "assistant"), ("content", .str "a")]])]
    rfl rfl rfl rfl⟩

/-- C7: an empty allow-list or the literal `0.0.0.0/0` admits every caller
IP string, parseable or not. -/
theorem c7_allow_all (caller_ip allowed_cidrs : String)
    (h : allowed_cidrs = "" ∨ allowed_cidrs = "0.0.0.0/0") :
    ip_allowed caller_ip allowed_cidrs = true := by
  rcases h with h | h <;> subst h
  · rw [ip_allowed, if_pos rfl]
  · rw [ip_allowed]
    rw [if_neg (by decide), if_pos (by decide)]

/-- C7, witness: two unparseable caller IPs, one per allow-all spelling. -/
theorem c7_witness :
    ip_allowed "not.an.ip" "" = true ∧ ip_allowed "999.999.999.999" "0.0.0.0/0" = true :=
  ⟨c7_allow_all "not.an.ip" "" (Or.inl rfl),
    c7_allow_all "999.999.999.999" "0.0.0.0/0" (Or.inr rfl)⟩

/-- C8: with a non-trivial allow-list, an unparseable caller IP is denied,
and a parseable caller IP is allowed exactly when some configured entry both
parses as a network and contains it — malformed entries are skipped without
failing the check (they can never satisfy the match). -/
theorem c8_cidr_matching (caller_ip allowed_cidrs : String) (a : Nat)
    (h1 : allowed_cidrs ≠ "") (h2 : pyStrip allowed_cidrs ≠ "0.0.0.0/0") :
    (ip_address_parse caller_ip = none → ip_allowed caller_ip allowed_cidrs = false)
    ∧ (ip_address_parse caller_ip = some a →
        (ip_allowed caller_ip allowed_cidrs = true ↔
          ∃ entry ∈ cidr_entries allowed_cidrs, ∃ net : Nat × Nat,
            ip_network_parse entry = some net ∧ net_contains net a = true)) := by
  constructor
  · intro hp
    rw [ip_allowed, if_neg h1, if_neg h2]
    simp only [hp]
  · intro hp
    rw [ip_allowed, if_neg h1, if_neg h2]
    simp only [hp, List.any_eq_true]
    constructor
    · rintro ⟨entry, hmem, hpred⟩
      refine ⟨entry, hmem, ?_⟩
      cases hpe : ip_network_parse entry with
      | none => rw [hpe] at hpred; cases hpred
      | some net =>
        rw [hpe] at hpred
        exact ⟨net, rfl, hpred⟩
    · rintro ⟨entry, hmem, net, hpe, hcont⟩
      refine ⟨entry, hmem, ?_⟩
      rw [hpe]
      exact hcont

/-- C8, witness: caller `10.1.2.3` against the list `bad, 10.0.0.0/8` — the
malformed entry is skipped and the second entry matches. -/
theorem c8_witness :
    (ip_address_parse "10.1.2.3" = none → ip_allowed "10.1.2.3" "bad, 10.0.0.0/8" = false)
    ∧ (ip_address_parse "10.1.2.3" = some 167838211 →
        (ip_allowed "10.1.2.3" "bad, 10.0.0.0/8" = true ↔
          ∃ entry ∈ cidr_entries "bad, 10.0.0.0/8", ∃ net : Nat × Nat,
            ip_network_parse entry = some net ∧ net_contains net 167838211 = true)) :=
  c8_cidr_matching "10.1.2.3" "bad, 10.0.0.0/8" 167838211 (by decide) (by decide)

theorem orStr_some (x y : Option String) (v : String) (h : orStr x y = some v) :
    x = some v ∨ y = some v := by
  cases x with
  | none => right; simpa [orStr] using h
  | some s =>
    by_cases hs : s = ""
    · right
      simpa [orStr, hs] using h
    · left
      simpa [orStr, hs] using h

theorem auth_ok_true_elim (headers : List (String × String)) (k : String)
    (hok : auth_ok headers (some k) = true) :
    orStr (pyGet headers "Authorization") (pyGet headers "authorization") =
      some ("Bearer " ++ k) := by
  cases ho : orStr (pyGet headers "Authorization") (pyGet headers "authorization") with
  | none => simp [auth_ok, ho] at hok
  | some a =>
    simp only [auth_ok, ho] at hok
    by_cases ha : a = ""
    · rw [if_pos ha] at hok; cases hok
    · rw [if_neg ha] at hok
      by_cases hk : k = ""
      · rw [if_pos hk] at hok; cases hok
      · rw [if_neg hk] at hok
        rw [of_decide_eq_true hok]

/-- C9: with API-key enforcement enabled, a request is accepted only when it
carries an `Authorization` (or `authorization`) header whose value is exactly
`Bearer ` followed by the configured secret; missing and mismatched
credentials yield one and the same 401 `unauthorized` response. -/
theorem c9_bearer_check (headers : List (String × String)) (k : String) (E : Type)
    (env : Env) (elizaInit : Except PyExn E) (gen : E → String → Except PyExn String)
    (uuidHex : String) (created : Int) (event : Event) (payload : JVal)
    (hip : ip_allowed (extract_caller_ip event) env.allowed_caller_cidr = true)
    (hparse : parse_body event.body = some payload)
    (hreq : require_flag env.require_api_key_raw = true)
    (hfail : auth_ok (event.headers.getD []) env.api_key = false) :
    (auth_ok headers (some k) = true →
      pyGet headers "Authorization" = some ("Bearer " ++ k) ∨
        pyGet headers "authorization" = some ("Bearer " ++ k))
    ∧ lambda_handler E env elizaInit gen uuidHex created event =
      .ok (make_response 401 (errorBody "Invalid or missing API key" "unauthorized")) := by
  constructor
  · intro hok
    exact orStr_some _ _ _ (auth_ok_true_elim headers k hok)
  · rw [lambda_handler]
    simp only [hip, if_true, hparse, hreq, hfail, Bool.not_false, Bool.and_self, if_true]

/-- C9, witness: enforcement on, no credentials at all — 401; and the
acceptance condition at a concrete matching header. -/
theorem c9_witness :
    (auth_ok [("Authorization", "Bearer secret")] (some "secret") = true →
      pyGet [("Authorization", "Bearer secret")] "Authorization" =
        some ("Bearer " ++ "secret") ∨
      pyGet [("Authorization", "Bearer secret")] "authorization" =
        some ("Bearer " ++ "secret"))
    ∧ lambda_handler Unit env_auth (Except.ok ()) gen_echo "u1" 0 event_hello =
      .ok (make_response 401 (errorBody "Invalid or missing API key" "unauthorized")) :=
  c9_bearer_check [("Authorization", "Bearer secret")] "secret" Unit env_auth
    (Except.ok ()) gen_echo "u1" 0 event_hello
    (.obj [("messages", .arr [msg_user_hello])]) rfl rfl rfl rfl

/-- C10: streaming is selected exactly when the `stream` field of the parsed
payload is the boolean `true` or the exact string `true`; the strings `True`
and `yes`, the number 1 and an absent field all select the single
non-streaming chat-completion object, and when streaming is selected the
handler returns the SSE response built from the reply. -/
theorem c10_stream_iff (fs : List (String × JVal)) (E : Type) (env : Env) (st : E)
    (gen : E → String → Except PyExn String) (uuidHex : String) (created : Int)
    (event : Event) (payload : JVal) (rmsgs : List JVal) (raw : String)
    (hip : ip_allowed (extract_caller_ip event) env.allowed_caller_cidr = true)
    (hparse : parse_body event.body = some payload)
    (hauth : (require_flag env.require_api_key_raw &&
      !(auth_ok (event.headers.getD []) env.api_key)) = false)
    (hmsgs : extract_messages payload = .ok rmsgs)
    (hui : find_user_input rmsgs ≠ "")
    (hgen : gen st (find_user_input rmsgs) = .ok raw) :
    (stream_requested (.obj fs) = true ↔
      (jGet fs "stream" = some (.bool true) ∨ jGet fs "stream" = some (.str "true")))
    ∧ stream_requested (.obj [("stream", .str "True")]) = false
    ∧ stream_requested (.obj [("stream", .str "yes")]) = false
    ∧ stream_requested (.obj [("stream", .num 1)]) = false
    ∧ stream_requested (.obj []) = false
    ∧ (stream_requested payload = false →
        lambda_handler E env (.ok st) gen uuidHex created event =
          .ok (make_response 200 (chat_completion_out ("eliza-" ++ uuidHex)
            (pyReplace (pyReplace raw "Eliza: " "") "\nYou: " "")
            (estimate_tokens (find_user_input rmsgs))
            (estimate_tokens (pyReplace (pyReplace raw "Eliza: " "") "\nYou: " ""))
            (estimate_tokens (find_user_input rmsgs) +
              estimate_tokens (pyReplace (pyReplace raw "Eliza: " "") "\nYou: " "")))))
    ∧ (stream_requested payload = true →
        lambda_handler E env (.ok st) gen uuidHex created event =
          (build_sse_body (pyReplace (pyReplace raw "Eliza: " "") "\nYou: " "")
              ("eliza-" ++ uuidHex) (env.model_name.getD "eliza-lambda") created
              (resolve_chunk_size env.sse_chunk_size)).map
            (fun sse => ⟨200, [("Content-Type", "text/event-stream; charset=utf-8"),
              ("Cache-Control", "no-cache")], sse⟩)) := by
  have hhappy := lambda_handler_happy E env st gen uuidHex created event payload rmsgs raw
    hip hparse hauth hmsgs hui hgen
  refine ⟨?_, by decide, by decide, by decide, by decide, ?_, ?_⟩
  · constructor
    · intro h
      cases hs : jGet fs "stream" with
      | none => simp [stream_requested, hs] at h
      | some v =>
        cases v with
        | bool b =>
          cases b with
          | true => left; rfl
          | false => simp [stream_requested, hs] at h
        | str s =>
          simp [stream_requested, hs] at h
          right
          rw [h]
        | null => simp [stream_requested, hs] at h
        | num n => simp [stream_requested, hs] at h
        | arr xs => simp [stream_requested, hs] at h
        | obj fs2 => simp [stream_requested, hs] at h
    · rintro (h | h) <;> simp [stream_requested, h]
  · intro hstream
    rw [hstream] at hhappy
    simpa using hhappy
  · intro hstream
    rw [hstream] at hhappy
    simpa using hhappy

/-- C10, witness: a request with `stream` set to the string `True` (not the
accepted literal) receives the single non-streaming JSON object; the other
concrete non-values are checked alongside. -/
theorem c10_witness :
    (stream_requested (.obj [("stream", .str "True"),
        ("messages", .arr [msg_user_hello])]) = true ↔
      (jGet [("stream", JVal.str "True"), ("messages", .arr [msg_user_hello])] "stream" =
          some (.bool true) ∨
        jGet [("stream", JVal.str "True"), ("messages", .arr [msg_user_hello])] "stream" =
          some (.str "true")))
    ∧ stream_requested (.obj [("stream", .str "True")]) = false
    ∧ stream_requested (.obj [("stream", .str "yes")]) = false
    ∧ stream_requested (.obj [("stream", .num 1)]) = false
    ∧ stream_requested (.obj []) = false
    ∧ (stream_requested (.obj [("stream", .str "True"),
        ("messages", .arr [msg_user_hello])]) = false →
        lambda_handler Unit env_open (.ok ()) gen_echo "u1" 0
          ⟨some [], .jval (.obj [("stream", .str "True"), ("messages", .arr [msg_user_hello])]),
            none, none, none, none⟩ =
          .ok (make_response 200 (chat_completion_out ("eliza-" ++ "u1")
            (pyReplace (pyReplace "Eliza: How do you do." "Eliza: " "") "\nYou: " "")
            (estimate_tokens (find_user_input [msg_user_hello]))
            (estimate_tokens (pyReplace (pyReplace "Eliza: How do you do." "Eliza: " "") "\nYou: " ""))
            (estimate_tokens (find_user_input [msg_user_hello]) +
              estimate_tokens (pyReplace (pyReplace "Eliza: How do you do." "Eliza: " "") "\nYou: " "")))))
    ∧ (stream_requested (.obj [("stream", .str "True"),
        ("messages", .arr [msg_user_hello])]) = true →
        lambda_handler Unit env_open (.ok ()) gen_echo "u1" 0
          ⟨some [], .jval (.obj [("stream", .str "True"), ("messages", .arr [msg_user_hello])]),
            none, none, none, none⟩ =
          (build_sse_body (pyReplace (pyReplace "Eliza: How do you do." "Eliza: " "") "\nYou: " "")
              ("eliza-" ++ "u1") (env_open.model_name.getD "eliza-lambda") 0
              (resolve_chunk_size env_open.sse_chunk_size)).map
            (fun sse => ⟨200, [("Content-Type", "text/event-stream; charset=utf-8"),
              ("Cache-Control", "no-cache")], sse⟩)) :=
  c10_stream_iff [("stream", .str "True"), ("messages", .arr [msg_user_hello])]
    Unit env_open () gen_echo "u1" 0
    ⟨some [], .jval (.obj [("stream", .str "True"), ("messages", .arr [msg_user_hello])]),
      none, none, none, none⟩
    (.obj [("stream", .str "True"), ("messages", .arr [msg_user_hello])])
    [msg_user_hello] "Eliza: How do you do."
    rfl rfl rfl rfl (by decide) rfl
